import Mathlib

/-!
Shallow embedding of the Mess-O-Meter waste-analysis engine
(src/app.py and src/gemini_service.py) over exact rationals.

Python floats are idealised as rationals; Python `round` (banker's
rounding, half to even) is modelled by `roundHalfEven`.
-/

/-- Python `round(q)`: nearest integer, ties to even. -/
def roundHalfEven (q : ℚ) : ℤ :=
  if q - (⌊q⌋ : ℚ) = 1/2 then
    (if ⌊q⌋ % 2 = 0 then ⌊q⌋ else ⌊q⌋ + 1)
  else round q

/-- Python `round(q, d)`: round to `d` decimal places. -/
def roundTo (d : ℕ) (q : ℚ) : ℚ :=
  (roundHalfEven (q * 10 ^ d) : ℚ) / 10 ^ d

/-- Python `str.lower` for the detector's ASCII labels, written
structurally over the character list so that it evaluates. -/
def lowercase (s : String) : String :=
  String.mk (s.data.map Char.toLower)

/-- Python `str.strip`: drop leading and trailing whitespace (structural). -/
def pyStrip (s : String) : String :=
  String.mk (((s.data.dropWhile Char.isWhitespace).reverse.dropWhile Char.isWhitespace).reverse)

/-- Python slicing `s[:n]` (structural). -/
def pyTake (s : String) (n : ℕ) : String :=
  String.mk (s.data.take n)

/-- A detector bounding box `(x1, y1, x2, y2)` in pixel coordinates. -/
structure BBox where
  x1 : ℚ
  y1 : ℚ
  x2 : ℚ
  y2 : ℚ
deriving DecidableEq, Repr

/-- One detection from the external detector: class label, confidence,
bounding box (src/model/inference.py output contract). -/
structure Detection where
  class_name : String
  confidence : ℚ
  bbox : BBox
deriving DecidableEq, Repr

/-- src/app.py `calculate_box_area`: `(x2 - x1) * (y2 - y1)`. -/
def calculate_box_area (bbox : BBox) : ℚ :=
  (bbox.x2 - bbox.x1) * (bbox.y2 - bbox.y1)

/-- The plate test used throughout src/app.py:
`det["class_name"].lower() == "plate"`. -/
def is_plate (d : Detection) : Bool :=
  lowercase d.class_name == "plate"

/-- The plate-selection loop of `analyze_plate_coverage`: every detection
labelled plate overwrites `plate_bbox`, so the last one wins. -/
def findPlateBBox (dets : List Detection) : Option BBox :=
  dets.foldl (fun acc d => if is_plate d then some d.bbox else acc) none

/-- The non-plate detections, in detector order. -/
def food_items_of (dets : List Detection) : List Detection :=
  dets.filter (fun d => ! is_plate d)

/-- `plate_area` of `analyze_plate_coverage`: detected plate's box area,
else `0.7 * image_height * image_width`. -/
def plate_area_of (dets : List Detection) (image_shape : ℚ × ℚ) : ℚ :=
  match findPlateBBox dets with
  | some b => calculate_box_area b
  | none => (image_shape.1 * image_shape.2) * (7/10)

/-- `total_food_area` of `analyze_plate_coverage`: sum of box areas of the
non-plate detections (overlaps double-counted). -/
def total_food_area_of (dets : List Detection) : ℚ :=
  ((food_items_of dets).map (fun d => calculate_box_area d.bbox)).sum

/-- Unrounded coverage percentage of `analyze_plate_coverage`:
`min((total_food_area / plate_area) * 100, 100) if plate_area > 0 else 0`. -/
def coverageOf (dets : List Detection) (image_shape : ℚ × ℚ) : ℚ :=
  if plate_area_of dets image_shape > 0
    then min ((total_food_area_of dets / plate_area_of dets image_shape) * 100) 100
    else 0

/-- The waste-level chain of `analyze_plate_coverage`, evaluated top-down
on the unrounded coverage. -/
def wasteLevelOf (c : ℚ) : String :=
  if c ≥ 60 then "HIGH"
  else if c ≥ 30 then "MEDIUM"
  else if c ≥ 10 then "LOW"
  else "NONE"

/-- The waste-description chain paired with `wasteLevelOf`. -/
def wasteDescriptionOf (c : ℚ) : String :=
  if c ≥ 60 then "Significant food remaining"
  else if c ≥ 30 then "Moderate food remaining"
  else if c ≥ 10 then "Minimal food remaining"
  else "Plate is clean"

/-- Result shape of src/app.py `analyze_plate_coverage`. -/
structure PlateAnalysis where
  plate_detected : Bool
  coverage_percent : ℚ
  waste_level : String
  waste_description : String
  food_items_detected : ℕ
  total_food_area_px : ℤ
  plate_area_px : ℤ
deriving DecidableEq, Repr

/-- src/app.py `analyze_plate_coverage`. -/
def analyze_plate_coverage (dets : List Detection) (image_shape : ℚ × ℚ) : PlateAnalysis :=
  let coverage_percent := coverageOf dets image_shape
  { plate_detected := (findPlateBBox dets).isSome
    coverage_percent := roundTo 1 coverage_percent
    waste_level := wasteLevelOf coverage_percent
    waste_description := wasteDescriptionOf coverage_percent
    food_items_detected := (food_items_of dets).length
    total_food_area_px := roundHalfEven (total_food_area_of dets)
    plate_area_px := roundHalfEven (plate_area_of dets image_shape) }

/-- The portion-size chain of src/app.py `generate_food_details`:
`Large if area > 40000, Medium elif area > 15000, else Small`. -/
def portionOf (area : ℚ) : String :=
  if area > 40000 then "Large"
  else if area > 15000 then "Medium"
  else "Small"

/-- One entry of `generate_food_details`. -/
structure FoodDetail where
  item : String
  confidence : ℚ
  portion_size : String
  width : ℤ
  height : ℤ
deriving DecidableEq, Repr

/-- The record built for one non-plate detection in `generate_food_details`. -/
def foodDetailOf (d : Detection) : FoodDetail :=
  { item := d.class_name
    confidence := roundTo 1 (d.confidence * 100)
    portion_size := portionOf (calculate_box_area d.bbox)
    width := roundHalfEven (d.bbox.x2 - d.bbox.x1)
    height := roundHalfEven (d.bbox.y2 - d.bbox.y1) }

/-- src/app.py `generate_food_details`: skip plates, describe the rest. -/
def generate_food_details (dets : List Detection) : List FoodDetail :=
  dets.filterMap (fun d =>
    if lowercase d.class_name = "plate" then none else some (foodDetailOf d))

/-- src/app.py `generate_user_insight`: the deterministic user message,
keyed on `waste_level`; `{coverage:.0f}` renders the rounded coverage
with zero decimals. `food_counts` is the insertion-ordered label/count list. -/
def generate_user_insight (analysis : PlateAnalysis) (food_counts : List (String × ℕ)) : String :=
  let covStr := toString (roundHalfEven analysis.coverage_percent)
  let items := food_counts.map Prod.fst
  let items_str := String.intercalate ", " (items.take 3)
  if analysis.waste_level = "NONE" then
    "🌟 Great job! You finished your meal completely. Thank you for minimizing food waste!"
  else if analysis.waste_level = "LOW" then
    "👍 Well done! Only a little bit of food remaining (" ++ covStr ++
      "% coverage). You\x27re helping reduce food waste!"
  else if analysis.waste_level = "MEDIUM" then
    "⚠️ About " ++ covStr ++ "% of food is remaining (" ++ items_str ++
      "). Consider taking smaller portions next time to reduce waste."
  else
    "🚨 Significant food waste detected (" ++ covStr ++ "% coverage). Items remaining: " ++
      items_str ++ ". Please consider taking only what you can finish."

/-- Python `sorted(food_counts.items(), key=count, reverse=True)`: stable
descending insertion sort on the count. -/
def insertDescByCount (x : String × ℕ) : List (String × ℕ) → List (String × ℕ)
  | [] => [x]
  | y :: ys => if x.2 ≥ y.2 then x :: y :: ys else y :: insertDescByCount x ys

/-- Stable sort of the label/count pairs, descending by count. -/
def sortDescByCount (l : List (String × ℕ)) : List (String × ℕ) :=
  l.foldr insertDescByCount []

/-- Result shape of src/app.py `generate_admin_insight`. -/
structure AdminInsight where
  waste_level : String
  coverage_percent : ℚ
  items_left : List (String × ℕ)
  most_wasted_item : Option String
  total_items_remaining : ℕ
  recommendations : List String
  action_required : Bool
deriving DecidableEq, Repr

/-- src/app.py `generate_admin_insight`. -/
def generate_admin_insight (analysis : PlateAnalysis) (food_counts : List (String × ℕ)) : AdminInsight :=
  let sorted_items := sortDescByCount food_counts
  let recommendations :=
    if analysis.waste_level = "HIGH" ∨ analysis.waste_level = "MEDIUM" then
      (if "Rice" ∈ food_counts.map Prod.fst then
        ["Consider reducing default rice portion size"] else []) ++
      (if "Roti" ∈ food_counts.map Prod.fst then
        ["Offer rotis on-demand rather than pre-plated"] else []) ++
      (if food_counts.length > 4 then
        ["Too many items may lead to waste - consider combo meals"] else []) ++
      ["Display waste awareness signage near serving area"]
    else []
  { waste_level := analysis.waste_level
    coverage_percent := analysis.coverage_percent
    items_left := sorted_items
    most_wasted_item := sorted_items.head?.map Prod.fst
    total_items_remaining := (food_counts.map Prod.snd).sum
    recommendations := recommendations
    action_required := analysis.waste_level = "HIGH" ∨ analysis.waste_level = "MEDIUM" }

/-- Outcome of one call to the external Gemini model: the request either
raises (exception or timeout) or returns a response text. -/
inductive AdapterOutcome where
  | raises
  | returns (text : String)
deriving DecidableEq, Repr

/-- src/gemini_service.py `GeminiInsightGenerator.generate_user_insight`
(and `generate_admin_insight`, which has the same control flow): `None`
when disabled, `None` on any exception, else the stripped response text. -/
def gemini_insight (enabled : Bool) (outcome : AdapterOutcome) : Option String :=
  if enabled = false then none
  else
    match outcome with
    | .raises => none
    | .returns t => some (pyStrip t)

/-- Python truthiness of `ai_user_insight if ai_user_insight else user_insight`:
`None` and the empty string fall back to the deterministic message. -/
def pickInsight (ai : Option String) (fallback : String) : String :=
  match ai with
  | some t => if t = "" then fallback else t
  | none => fallback

/-- The insight-bearing part of the `/analyze` response body. -/
structure AnalyzeResponseCore where
  success : Bool
  user_insight : String
  admin_insight : AdminInsight
  ai_summary : Option String
deriving DecidableEq, Repr

/-- src/app.py `analyze_food_waste`, response-assembly tail (lines 277-311):
deterministic insights, then the Gemini calls; `INVALID_IMAGE` short-circuits
to the rejection response (`none` here), otherwise a success response whose
`user_insight` prefers a truthy AI text and whose `admin_insight` carries the
AI summary alongside the deterministic admin record. -/
def assemble_analysis_response (analysis : PlateAnalysis) (food_counts : List (String × ℕ))
    (enabled : Bool) (userOutcome adminOutcome : AdapterOutcome) : Option AnalyzeResponseCore :=
  let user_insight := generate_user_insight analysis food_counts
  let admin_insight := generate_admin_insight analysis food_counts
  let ai_user := gemini_insight enabled userOutcome
  if ai_user = some "INVALID_IMAGE" then none
  else
    let ai_admin := gemini_insight enabled adminOutcome
    some { success := true
           user_insight := pickInsight ai_user user_insight
           admin_insight := admin_insight
           ai_summary := ai_admin }

/-- The numeric ratings read by the aggregator: `ratings[key]` for the four
fixed keys, present only when the key exists with a numeric value. -/
structure Ratings where
  taste : Option ℚ
  oil : Option ℚ
  quantity : Option ℚ
  hygiene : Option ℚ
deriving DecidableEq, Repr

/-- The embedded waste sub-record of a feedback document; the `.get`
defaults of the source (`"NONE"`, `0`, `{}`) make every field total. -/
structure WasteSub where
  wasteLevel : String
  coveragePercent : ℚ
  foodItems : List (String × ℤ)
deriving DecidableEq, Repr

/-- One Firestore `mealFeedback` document as read by src/app.py
`generate_ai_insights`: `comment` is `data.get("comment") or
data.get("text") or ""`. -/
structure FeedbackRecord where
  mealType : String
  comment : String
  ratings : Ratings
  wasteAnalysis : Option WasteSub
deriving DecidableEq, Repr

/-- One entry of the aggregator's `comments` list. -/
structure CommentEntry where
  mealType : String
  text : String
  ratings : Ratings
deriving DecidableEq, Repr

/-- The four fixed waste-level histogram buckets. -/
structure WasteLevelCounts where
  NONE : ℕ
  LOW : ℕ
  MEDIUM : ℕ
  HIGH : ℕ
deriving DecidableEq, Repr

/-- `if waste_level in counts: counts[waste_level] += 1`; unknown levels
are dropped. -/
def bumpWasteLevel (c : WasteLevelCounts) (lvl : String) : WasteLevelCounts :=
  if lvl = "NONE" then { c with NONE := c.NONE + 1 }
  else if lvl = "LOW" then { c with LOW := c.LOW + 1 }
  else if lvl = "MEDIUM" then { c with MEDIUM := c.MEDIUM + 1 }
  else if lvl = "HIGH" then { c with HIGH := c.HIGH + 1 }
  else c

/-- The `aggregated_data` accumulator of `generate_ai_insights` before the
averaging step. Python dicts are modelled as total functions (the per-meal
`"ratings": []` list is initialised but never written, so only the count is
carried); the four `ratingAverages` lists hold the appended observations. -/
structure AggState where
  totalFeedback : ℕ
  mealTypeCounts : String → ℕ
  comments : List CommentEntry
  tasteList : List ℚ
  oilList : List ℚ
  quantityList : List ℚ
  hygieneList : List ℚ
  totalAnalyses : ℕ
  wasteLevelCounts : WasteLevelCounts
  coverageSum : ℚ
  foodItemsWasted : String → ℤ

/-- The empty accumulator built at the top of `generate_ai_insights`. -/
def initAggState : AggState :=
  { totalFeedback := 0
    mealTypeCounts := fun _ => 0
    comments := []
    tasteList := []
    oilList := []
    quantityList := []
    hygieneList := []
    totalAnalyses := 0
    wasteLevelCounts := ⟨0, 0, 0, 0⟩
    coverageSum := 0
    foodItemsWasted := fun _ => 0 }

/-- The comment appended for a record, when its comment is non-blank:
`{"mealType": ..., "text": comment[:200], "ratings": ...}`. -/
def commentOf (r : FeedbackRecord) : Option CommentEntry :=
  if pyStrip r.comment ≠ "" then some ⟨r.mealType, pyTake r.comment 200, r.ratings⟩ else none

/-- Total-count and per-meal-type bookkeeping for one record. -/
def applyBase (s : AggState) (r : FeedbackRecord) : AggState :=
  { s with
    totalFeedback := s.totalFeedback + 1
    mealTypeCounts := fun m =>
      if m = r.mealType then s.mealTypeCounts m + 1 else s.mealTypeCounts m }

/-- `if comment.strip(): aggregated_data["comments"].append(...)`. -/
def applyComment (s : AggState) (r : FeedbackRecord) : AggState :=
  { s with comments := s.comments ++ (commentOf r).toList }

/-- Append each present numeric rating to its per-category list. -/
def applyRatings (s : AggState) (r : FeedbackRecord) : AggState :=
  { s with
    tasteList := s.tasteList ++ r.ratings.taste.toList
    oilList := s.oilList ++ r.ratings.oil.toList
    quantityList := s.quantityList ++ r.ratings.quantity.toList
    hygieneList := s.hygieneList ++ r.ratings.hygiene.toList }

/-- `for item, count in food_items.items(): wasted[item] = wasted.get(item, 0) + count`. -/
def addFoodItems (f : String → ℤ) (items : List (String × ℤ)) : String → ℤ :=
  items.foldl (fun g ic => fun item => if item = ic.1 then g item + ic.2 else g item) f

/-- Waste-sub-record bookkeeping: histogram bucket, coverage running sum,
cumulative per-item wasted counts. -/
def applyWaste (s : AggState) (r : FeedbackRecord) : AggState :=
  match r.wasteAnalysis with
  | none => s
  | some w =>
    { s with
      totalAnalyses := s.totalAnalyses + 1
      wasteLevelCounts := bumpWasteLevel s.wasteLevelCounts w.wasteLevel
      coverageSum := s.coverageSum + w.coveragePercent
      foodItemsWasted := addFoodItems s.foodItemsWasted w.foodItems }

/-- The loop body of `generate_ai_insights` for one feedback document. -/
def stepRecord (s : AggState) (r : FeedbackRecord) : AggState :=
  applyWaste (applyRatings (applyComment (applyBase s r) r) r) r

/-- The whole aggregation loop: fold the records into the empty accumulator. -/
def aggregate (records : List FeedbackRecord) : AggState :=
  records.foldl stepRecord initAggState

/-- The finalized snapshot handed to the insight layer. -/
structure Snapshot where
  totalFeedback : ℕ
  mealTypeCounts : String → ℕ
  comments : List CommentEntry
  ratingAvgTaste : ℚ
  ratingAvgOil : ℚ
  ratingAvgQuantity : ℚ
  ratingAvgHygiene : ℚ
  totalAnalyses : ℕ
  wasteLevelCounts : WasteLevelCounts
  avgCoveragePercent : ℚ
  foodItemsWasted : String → ℤ

/-- `round(sum(values) / len(values), 2) if values else 0`. -/
def finalizeRatings (values : List ℚ) : ℚ :=
  if values ≠ [] then roundTo 2 (values.sum / (values.length : ℚ)) else 0

/-- The averaging step of `generate_ai_insights`: rating lists become means
(0 when empty) and the coverage running sum becomes a mean over the records
that carried a waste sub-record (left as the 0 running sum otherwise). -/
def finalize (s : AggState) : Snapshot :=
  { totalFeedback := s.totalFeedback
    mealTypeCounts := s.mealTypeCounts
    comments := s.comments
    ratingAvgTaste := finalizeRatings s.tasteList
    ratingAvgOil := finalizeRatings s.oilList
    ratingAvgQuantity := finalizeRatings s.quantityList
    ratingAvgHygiene := finalizeRatings s.hygieneList
    totalAnalyses := s.totalAnalyses
    wasteLevelCounts := s.wasteLevelCounts
    avgCoveragePercent :=
      if s.totalAnalyses > 0 then roundTo 1 (s.coverageSum / (s.totalAnalyses : ℚ))
      else s.coverageSum
    foodItemsWasted := s.foodItemsWasted }

/-- The structured-insights object shape (`issues`, `improvements`,
`wellPerforming`, `summary`); the deterministic paths only ever build the
empty-list variants. -/
structure StructuredInsights where
  issues : List String
  improvements : List String
  wellPerforming : List String
  summary : String
deriving DecidableEq, Repr

/-- The `empty_insights` object of the zero-feedback guard. -/
def empty_insights (time_range : String) : StructuredInsights :=
  { issues := []
    improvements := []
    wellPerforming := []
    summary := "No feedback data available for the " ++ time_range ++ " period." }

/-- The fallback object used when the AI returns nothing. -/
def fallback_insights : StructuredInsights :=
  { issues := []
    improvements := []
    wellPerforming := []
    summary := "AI analysis temporarily unavailable. Please try again later." }

/-- src/app.py `generate_ai_insights`, decision tail (lines 499-541):
aggregate, finalize, short-circuit to the no-data insights when zero
records were seen, otherwise consult the enrichment adapter with the
deterministic fallback. The boolean records whether enrichment was invoked. -/
def generate_ai_insights (time_range : String)
    (enrich : Snapshot → Option StructuredInsights)
    (records : List FeedbackRecord) : StructuredInsights × Bool :=
  let snap := finalize (aggregate records)
  if snap.totalFeedback = 0 then (empty_insights time_range, false)
  else
    match enrich snap with
    | some insights => (insights, true)
    | none => (fallback_insights, true)

/-! ## Rounding lemmas -/

lemma roundHalfEven_nonneg (q : ℚ) (h : 0 ≤ q) : 0 ≤ roundHalfEven q := by
  unfold roundHalfEven
  have hf : (0 : ℤ) ≤ ⌊q⌋ := Int.floor_nonneg.mpr h
  split_ifs with h1 h2
  · exact hf
  · omega
  · rw [round_eq]
    exact Int.floor_nonneg.mpr (by linarith)

lemma roundHalfEven_le_of_le_int (q : ℚ) (n : ℤ) (h : q ≤ n) : roundHalfEven q ≤ n := by
  unfold roundHalfEven
  split_ifs with h1 h2
  · have hq : (⌊q⌋ : ℚ) < n := by linarith
    have : ⌊q⌋ < n := by exact_mod_cast hq
    omega
  · have hq : (⌊q⌋ : ℚ) < n := by linarith
    have : ⌊q⌋ < n := by exact_mod_cast hq
    omega
  · rw [round_eq]
    have hle : q + 1/2 ≤ (n : ℚ) + 1/2 := by linarith
    have h2 : ⌊q + 1/2⌋ ≤ ⌊(n : ℚ) + 1/2⌋ := Int.floor_mono hle
    have h3 : ⌊(n : ℚ) + 1/2⌋ = n := by
      rw [Int.floor_int_add]
      norm_num
    omega

lemma roundTo_nonneg (d : ℕ) (q : ℚ) (h : 0 ≤ q) : 0 ≤ roundTo d q := by
  unfold roundTo
  have h1 : (0 : ℤ) ≤ roundHalfEven (q * 10 ^ d) :=
    roundHalfEven_nonneg _ (by positivity)
  have h2 : (0 : ℚ) ≤ (roundHalfEven (q * 10 ^ d) : ℚ) := by exact_mod_cast h1
  positivity

lemma roundTo_le_int (d : ℕ) (q : ℚ) (n : ℤ) (h : q ≤ n) : roundTo d q ≤ n := by
  unfold roundTo
  have h10 : (0 : ℚ) < 10 ^ d := by positivity
  have h1 : q * 10 ^ d ≤ ((n * 10 ^ d : ℤ) : ℚ) := by
    push_cast
    exact mul_le_mul_of_nonneg_right h (le_of_lt h10)
  have h2 : roundHalfEven (q * 10 ^ d) ≤ n * 10 ^ d :=
    roundHalfEven_le_of_le_int _ _ h1
  rw [div_le_iff₀ h10]
  exact_mod_cast h2

/-! ## C1: coverage formula and clamping -/

/-- C1: for every detection list (with well-formed boxes, `x2 ≥ x1` and
`y2 ≥ y1` as the detector contract guarantees) and every image shape,
`analyze_plate_coverage` computes the unrounded coverage as
`min(100, 100 * total_food_area / plate_area)` when `plate_area > 0` and `0`
otherwise, reports it rounded to one decimal, and the reported
`coverage_percent` always lies in `[0, 100]` even when the summed food areas
exceed the plate area. -/
theorem coverage_formula_and_clamped (dets : List Detection) (shape : ℚ × ℚ)
    (h : ∀ d ∈ dets, d.bbox.x1 ≤ d.bbox.x2 ∧ d.bbox.y1 ≤ d.bbox.y2) :
    coverageOf dets shape =
      (if plate_area_of dets shape > 0
        then min ((total_food_area_of dets / plate_area_of dets shape) * 100) 100
        else 0) ∧
    (analyze_plate_coverage dets shape).coverage_percent = roundTo 1 (coverageOf dets shape) ∧
    0 ≤ (analyze_plate_coverage dets shape).coverage_percent ∧
    (analyze_plate_coverage dets shape).coverage_percent ≤ 100 := by
  have htfa : 0 ≤ total_food_area_of dets := by
    unfold total_food_area_of
    apply List.sum_nonneg
    intro x hx
    simp only [List.mem_map] at hx
    obtain ⟨d, hd, rfl⟩ := hx
    have hd' : d ∈ dets := List.mem_of_mem_filter hd
    obtain ⟨hx1, hy1⟩ := h d hd'
    unfold calculate_box_area
    exact mul_nonneg (by linarith) (by linarith)
  have hcov0 : 0 ≤ coverageOf dets shape := by
    unfold coverageOf
    split_ifs with hp
    · exact le_min (mul_nonneg (div_nonneg htfa (le_of_lt hp)) (by norm_num)) (by norm_num)
    · exact le_refl 0
  have hcov100 : coverageOf dets shape ≤ 100 := by
    unfold coverageOf
    split_ifs with hp
    · exact min_le_right _ _
    · norm_num
  refine ⟨rfl, rfl, roundTo_nonneg 1 _ hcov0, ?_⟩
  have := roundTo_le_int 1 (coverageOf dets shape) 100 (by exact_mod_cast hcov100)
  exact_mod_cast this

/-- A concrete plate detection used for witnesses. -/
def detPlateW : Detection := { class_name := "Plate", confidence := 9/10, bbox := ⟨0, 0, 100, 100⟩ }

/-- A concrete food detection used for witnesses. -/
def detRiceW : Detection := { class_name := "Rice", confidence := 4/5, bbox := ⟨0, 0, 50, 50⟩ }

/-- Witness for C1 at a concrete input. -/
theorem coverage_formula_and_clamped_witness :
    (∀ d ∈ ([detPlateW, detRiceW] : List Detection),
      d.bbox.x1 ≤ d.bbox.x2 ∧ d.bbox.y1 ≤ d.bbox.y2) ∧
    (0 ≤ (analyze_plate_coverage [detPlateW, detRiceW] (200, 200)).coverage_percent ∧
      (analyze_plate_coverage [detPlateW, detRiceW] (200, 200)).coverage_percent ≤ 100) :=
  ⟨by decide, (coverage_formula_and_clamped [detPlateW, detRiceW] (200, 200) (by decide)).2.2⟩

/-! ## C2: waste level is a monotone step function of coverage -/

/-- Severity rank in the order NONE < LOW < MEDIUM < HIGH. -/
def waste_rank (s : String) : ℕ :=
  if s = "HIGH" then 3
  else if s = "MEDIUM" then 2
  else if s = "LOW" then 1
  else 0

lemma wasteLevelOf_eq_HIGH (c : ℚ) : wasteLevelOf c = "HIGH" ↔ 60 ≤ c := by
  unfold wasteLevelOf
  split_ifs with h1 h2 h3
  · exact ⟨fun _ => h1, fun _ => rfl⟩
  · exact ⟨fun hx => absurd hx (by decide), fun hx => absurd hx h1⟩
  · exact ⟨fun hx => absurd hx (by decide), fun hx => absurd hx h1⟩
  · exact ⟨fun hx => absurd hx (by decide), fun hx => absurd hx h1⟩

lemma wasteLevelOf_eq_MEDIUM (c : ℚ) : wasteLevelOf c = "MEDIUM" ↔ 30 ≤ c ∧ c < 60 := by
  unfold wasteLevelOf
  split_ifs with h1 h2 h3
  · exact ⟨fun hx => absurd hx (by decide), fun hx => absurd h1 (not_le.mpr hx.2)⟩
  · exact ⟨fun _ => ⟨h2, lt_of_not_le h1⟩, fun _ => rfl⟩
  · exact ⟨fun hx => absurd hx (by decide), fun hx => absurd hx.1 h2⟩
  · exact ⟨fun hx => absurd hx (by decide), fun hx => absurd hx.1 h2⟩

lemma wasteLevelOf_eq_LOW (c : ℚ) : wasteLevelOf c = "LOW" ↔ 10 ≤ c ∧ c < 30 := by
  unfold wasteLevelOf
  split_ifs with h1 h2 h3
  · exact ⟨fun hx => absurd hx (by decide), fun hx => absurd h1 (not_le.mpr (by linarith [hx.2]))⟩
  · exact ⟨fun hx => absurd hx (by decide), fun hx => absurd h2 (not_le.mpr hx.2)⟩
  · exact ⟨fun _ => ⟨h3, lt_of_not_le h2⟩, fun _ => rfl⟩
  · exact ⟨fun hx => absurd hx (by decide), fun hx => absurd hx.1 h3⟩

lemma wasteLevelOf_eq_NONE (c : ℚ) : wasteLevelOf c = "NONE" ↔ c < 10 := by
  unfold wasteLevelOf
  split_ifs with h1 h2 h3
  · exact ⟨fun hx => absurd hx (by decide), fun hx => absurd h1 (not_le.mpr (by linarith))⟩
  · exact ⟨fun hx => absurd hx (by decide), fun hx => absurd h2 (not_le.mpr (by linarith))⟩
  · exact ⟨fun hx => absurd hx (by decide), fun hx => absurd h3 (not_le.mpr hx)⟩
  · exact ⟨fun _ => lt_of_not_le h3, fun _ => rfl⟩

lemma waste_rank_wasteLevelOf (c : ℚ) :
    waste_rank (wasteLevelOf c) =
      if c ≥ 60 then 3 else if c ≥ 30 then 2 else if c ≥ 10 then 1 else 0 := by
  unfold wasteLevelOf
  split_ifs <;> rfl


/-- C2: the waste level assigned by the coverage analyzer is a monotone step
function of coverage (a higher coverage never yields a lower severity in the
order NONE < LOW < MEDIUM < HIGH), with lower-bound-inclusive buckets:
coverage ≥ 60 gives HIGH, ≥ 30 gives MEDIUM, ≥ 10 gives LOW, else NONE,
first match winning top-down. -/
theorem waste_level_monotone_step (c c' : ℚ) (h : c ≤ c') :
    waste_rank (wasteLevelOf c) ≤ waste_rank (wasteLevelOf c') ∧
    (wasteLevelOf c = "HIGH" ↔ 60 ≤ c) ∧
    (wasteLevelOf c = "MEDIUM" ↔ 30 ≤ c ∧ c < 60) ∧
    (wasteLevelOf c = "LOW" ↔ 10 ≤ c ∧ c < 30) ∧
    (wasteLevelOf c = "NONE" ↔ c < 10) := by
  refine ⟨?_, wasteLevelOf_eq_HIGH c, wasteLevelOf_eq_MEDIUM c,
    wasteLevelOf_eq_LOW c, wasteLevelOf_eq_NONE c⟩
  rw [waste_rank_wasteLevelOf, waste_rank_wasteLevelOf]
  split_ifs <;> linarith

/-- Witness for C2 at coverage values 5 and 65. -/
theorem waste_level_monotone_step_witness :
    (5 : ℚ) ≤ 65 ∧
    (waste_rank (wasteLevelOf 5) ≤ waste_rank (wasteLevelOf 65) ∧
      (wasteLevelOf 5 = "HIGH" ↔ 60 ≤ (5 : ℚ)) ∧
      (wasteLevelOf 5 = "MEDIUM" ↔ 30 ≤ (5 : ℚ) ∧ (5 : ℚ) < 60) ∧
      (wasteLevelOf 5 = "LOW" ↔ 10 ≤ (5 : ℚ) ∧ (5 : ℚ) < 30) ∧
      (wasteLevelOf 5 = "NONE" ↔ (5 : ℚ) < 10)) :=
  ⟨by norm_num, waste_level_monotone_step 5 65 (by norm_num)⟩

/-! ## C3: box area on degenerate boxes -/

/-- C3 counterexample: the box `(x1, y1, x2, y2) = (5, 0, 0, 10)` is
degenerate (`x2 ≤ x1`), yet `calculate_box_area` returns `-50`, not `0`:
the code never clamps the signed product. -/
theorem box_area_degenerate_not_zero :
    (⟨5, 0, 0, 10⟩ : BBox).x2 ≤ (⟨5, 0, 0, 10⟩ : BBox).x1 ∧
    calculate_box_area ⟨5, 0, 0, 10⟩ = -50 ∧
    calculate_box_area ⟨5, 0, 0, 10⟩ ≠ 0 := by
  refine ⟨by norm_num [BBox.mk.injEq], ?_, ?_⟩ <;> norm_num [calculate_box_area]

/-- C3 amended: for every bounding box, `calculate_box_area` returns the
signed product `(x2-x1) * (y2-y1)` and does not raise; the result is `0`
exactly when `x2 = x1` or `y2 = y1`, and a box inverted in exactly one axis
yields a non-positive (possibly negative) value rather than `0`. -/
theorem box_area_signed (b : BBox) :
    calculate_box_area b = (b.x2 - b.x1) * (b.y2 - b.y1) ∧
    (calculate_box_area b = 0 ↔ b.x2 = b.x1 ∨ b.y2 = b.y1) ∧
    (b.x2 ≤ b.x1 → b.y1 ≤ b.y2 → calculate_box_area b ≤ 0) ∧
    (b.y2 ≤ b.y1 → b.x1 ≤ b.x2 → calculate_box_area b ≤ 0) := by
  unfold calculate_box_area
  refine ⟨rfl, ?_, ?_, ?_⟩
  · rw [mul_eq_zero, sub_eq_zero, sub_eq_zero]
  · intro h1 h2
    exact mul_nonpos_of_nonpos_of_nonneg (by linarith) (by linarith)
  · intro h1 h2
    exact mul_nonpos_of_nonneg_of_nonpos (by linarith) (by linarith)

/-- Witness for C3 (amended) at the box `(5, 0, 0, 10)`. -/
theorem box_area_signed_witness :
    calculate_box_area ⟨5, 0, 0, 10⟩ = ((0 : ℚ) - 5) * (10 - 0) ∧
    (calculate_box_area ⟨5, 0, 0, 10⟩ ≤ 0) :=
  ⟨(box_area_signed ⟨5, 0, 0, 10⟩).1,
    (box_area_signed ⟨5, 0, 0, 10⟩).2.2.1 (by norm_num) (by norm_num)⟩

/-! ## C4: which plate box is honored when several are detected -/

/-- A small plate detection (area 100). -/
def plateSmallDet : Detection := { class_name := "Plate", confidence := 9/10, bbox := ⟨0, 0, 10, 10⟩ }

/-- A larger plate detection (area 400), later in detector order. -/
def plateBigDet : Detection := { class_name := "plate", confidence := 9/10, bbox := ⟨0, 0, 20, 20⟩ }

/-- C4 counterexample: with two plate detections the analyzer's `plate_area`
is the area of the second (last) one, not the first. -/
theorem plate_selection_not_first :
    calculate_box_area plateSmallDet.bbox = 100 ∧
    plate_area_of [plateSmallDet, plateBigDet] (200, 200) = 400 ∧
    (100 : ℚ) ≠ 400 := by
  have h1 : findPlateBBox [plateSmallDet, plateBigDet] = some plateBigDet.bbox := by decide
  refine ⟨?_, ?_, by norm_num⟩
  · norm_num [calculate_box_area, plateSmallDet]
  · simp only [plate_area_of, h1]
    norm_num [calculate_box_area, plateBigDet]

lemma foldl_plate_no_plate (l : List Detection) (acc : Option BBox)
    (h : ∀ e ∈ l, is_plate e = false) :
    l.foldl (fun acc d => if is_plate d then some d.bbox else acc) acc = acc := by
  induction l generalizing acc with
  | nil => rfl
  | cons e es ih =>
    have he := h e (List.mem_cons_self e es)
    simp only [List.foldl_cons, he, Bool.false_eq_true, if_false]
    exact ih acc (fun x hx => h x (List.mem_cons_of_mem _ hx))

/-- C4 amended: when several detections match "plate" case-insensitively,
the coverage analyzer honors exactly one plate box, namely the LAST one
encountered in detector order (each match overwrites the previous), and uses
its area as `plate_area`. -/
theorem plate_selection_last (l₁ l₂ : List Detection) (d : Detection) (shape : ℚ × ℚ)
    (hd : is_plate d = true) (h₂ : ∀ e ∈ l₂, is_plate e = false) :
    findPlateBBox (l₁ ++ d :: l₂) = some d.bbox ∧
    plate_area_of (l₁ ++ d :: l₂) shape = calculate_box_area d.bbox ∧
    (analyze_plate_coverage (l₁ ++ d :: l₂) shape).plate_detected = true := by
  have hfind : findPlateBBox (l₁ ++ d :: l₂) = some d.bbox := by
    unfold findPlateBBox
    rw [List.foldl_append]
    simp only [List.foldl_cons, hd, if_true]
    exact foldl_plate_no_plate l₂ _ h₂
  refine ⟨hfind, ?_, ?_⟩
  · unfold plate_area_of
    rw [hfind]
  · show (findPlateBBox (l₁ ++ d :: l₂)).isSome = true
    rw [hfind]
    rfl

/-- Witness for C4 (amended): the two-plate scene, with the big plate last. -/
theorem plate_selection_last_witness :
    is_plate plateBigDet = true ∧
    (findPlateBBox [plateSmallDet, plateBigDet] = some plateBigDet.bbox ∧
      plate_area_of [plateSmallDet, plateBigDet] (200, 200) = calculate_box_area plateBigDet.bbox ∧
      (analyze_plate_coverage [plateSmallDet, plateBigDet] (200, 200)).plate_detected = true) :=
  ⟨by decide, plate_selection_last [plateSmallDet] [] plateBigDet (200, 200) (by decide) (by decide)⟩

/-! ## C5: portion-size buckets -/

/-- A food detection whose box area is exactly 15000. -/
def riceMediumBoundary : Detection := { class_name := "Rice", confidence := 1, bbox := ⟨0, 0, 100, 150⟩ }

/-- A food detection whose box area is exactly 40000. -/
def riceLargeBoundary : Detection := { class_name := "Rice", confidence := 1, bbox := ⟨0, 0, 200, 200⟩ }

/-- C5 counterexample: an area of exactly 15000 is bucketed Small (the claim
says Medium) and an area of exactly 40000 is bucketed Medium (the claim says
Large): the code compares with strict `>`. -/
theorem portion_boundaries_not_inclusive :
    calculate_box_area riceMediumBoundary.bbox = 15000 ∧
    (generate_food_details [riceMediumBoundary]).map FoodDetail.portion_size = ["Small"] ∧
    calculate_box_area riceLargeBoundary.bbox = 40000 ∧
    (generate_food_details [riceLargeBoundary]).map FoodDetail.portion_size = ["Medium"] := by
  have hm : lowercase riceMediumBoundary.class_name = "plate" ↔ False := by decide
  have hl : lowercase riceLargeBoundary.class_name = "plate" ↔ False := by decide
  have am : calculate_box_area riceMediumBoundary.bbox = 15000 := by
    norm_num [calculate_box_area, riceMediumBoundary]
  have al : calculate_box_area riceLargeBoundary.bbox = 40000 := by
    norm_num [calculate_box_area, riceLargeBoundary]
  refine ⟨am, ?_, al, ?_⟩
  · simp only [generate_food_details, List.filterMap, hm, if_false, iff_false]
    norm_num [foodDetailOf, portionOf, am]
  · simp only [generate_food_details, List.filterMap, hl, if_false, iff_false]
    norm_num [foodDetailOf, portionOf, al]

lemma portionOf_eq_Large (a : ℚ) : portionOf a = "Large" ↔ 40000 < a := by
  unfold portionOf
  split_ifs with h1 h2
  · exact ⟨fun _ => h1, fun _ => rfl⟩
  · exact ⟨fun hx => absurd hx (by decide), fun hx => absurd hx h1⟩
  · exact ⟨fun hx => absurd hx (by decide), fun hx => absurd hx h1⟩

lemma portionOf_eq_Medium (a : ℚ) : portionOf a = "Medium" ↔ 15000 < a ∧ a ≤ 40000 := by
  unfold portionOf
  split_ifs with h1 h2
  · exact ⟨fun hx => absurd hx (by decide), fun hx => absurd h1 (not_lt.mpr hx.2)⟩
  · exact ⟨fun _ => ⟨h2, le_of_not_lt h1⟩, fun _ => rfl⟩
  · exact ⟨fun hx => absurd hx (by decide), fun hx => absurd hx.1 h2⟩

lemma portionOf_eq_Small (a : ℚ) : portionOf a = "Small" ↔ a ≤ 15000 := by
  unfold portionOf
  split_ifs with h1 h2
  · exact ⟨fun hx => absurd hx (by decide), fun hx => absurd h1 (not_lt.mpr (by linarith))⟩
  · exact ⟨fun hx => absurd hx (by decide), fun hx => absurd h2 (not_lt.mpr hx)⟩
  · exact ⟨fun _ => le_of_not_lt h2, fun _ => rfl⟩

/-- C5 amended: the portion bucket of every non-plate detection is determined
solely by raw pixel area, with boundaries exclusive toward the larger bucket:
area ≤ 15000 gives Small, 15000 < area ≤ 40000 gives Medium, and
area > 40000 gives Large (exactly 15000 is Small and exactly 40000 is Medium). -/
theorem portion_bucket_exclusive (a : ℚ) (dets : List Detection) (d : Detection)
    (hd : d ∈ dets) (hnp : lowercase d.class_name ≠ "plate") :
    (portionOf a = "Large" ↔ 40000 < a) ∧
    (portionOf a = "Medium" ↔ 15000 < a ∧ a ≤ 40000) ∧
    (portionOf a = "Small" ↔ a ≤ 15000) ∧
    foodDetailOf d ∈ generate_food_details dets ∧
    (foodDetailOf d).portion_size = portionOf (calculate_box_area d.bbox) := by
  refine ⟨portionOf_eq_Large a, portionOf_eq_Medium a, portionOf_eq_Small a, ?_, rfl⟩
  unfold generate_food_details
  exact List.mem_filterMap.mpr ⟨d, hd, by rw [if_neg hnp]⟩

/-- Witness for C5 (amended) at area 20000 and a concrete rice detection. -/
theorem portion_bucket_exclusive_witness :
    (riceMediumBoundary ∈ [riceMediumBoundary] ∧ lowercase riceMediumBoundary.class_name ≠ "plate") ∧
    ((portionOf 20000 = "Large" ↔ (40000 : ℚ) < 20000) ∧
      (portionOf 20000 = "Medium" ↔ (15000 : ℚ) < 20000 ∧ (20000 : ℚ) ≤ 40000) ∧
      (portionOf 20000 = "Small" ↔ (20000 : ℚ) ≤ 15000) ∧
      foodDetailOf riceMediumBoundary ∈ generate_food_details [riceMediumBoundary] ∧
      (foodDetailOf riceMediumBoundary).portion_size =
        portionOf (calculate_box_area riceMediumBoundary.bbox)) :=
  ⟨⟨List.mem_singleton.mpr rfl, by decide⟩,
    portion_bucket_exclusive 20000 [riceMediumBoundary] riceMediumBoundary
      (List.mem_singleton.mpr rfl) (by decide)⟩

/-! ## C6: admin recommendations -/

/-- C6: the admin report's recommendation list is empty unless waste_level is
MEDIUM or HIGH; when it is, it contains the rice-portion tip iff "Rice" is a
key of `food_counts`, the roti tip iff "Roti" is a key, the too-many-items tip
iff more than 4 distinct labels are present, and always the signage tip; and
`action_required` holds iff waste_level is MEDIUM or HIGH. -/
theorem admin_recommendations_spec (analysis : PlateAnalysis) (food_counts : List (String × ℕ))
    (_hnd : (food_counts.map Prod.fst).Nodup) :
    ((analysis.waste_level = "HIGH" ∨ analysis.waste_level = "MEDIUM") →
      (("Consider reducing default rice portion size" ∈
          (generate_admin_insight analysis food_counts).recommendations) ↔
        "Rice" ∈ food_counts.map Prod.fst) ∧
      (("Offer rotis on-demand rather than pre-plated" ∈
          (generate_admin_insight analysis food_counts).recommendations) ↔
        "Roti" ∈ food_counts.map Prod.fst) ∧
      (("Too many items may lead to waste - consider combo meals" ∈
          (generate_admin_insight analysis food_counts).recommendations) ↔
        4 < (food_counts.map Prod.fst).length) ∧
      "Display waste awareness signage near serving area" ∈
        (generate_admin_insight analysis food_counts).recommendations) ∧
    (¬(analysis.waste_level = "HIGH" ∨ analysis.waste_level = "MEDIUM") →
      (generate_admin_insight analysis food_counts).recommendations = []) ∧
    ((generate_admin_insight analysis food_counts).action_required = true ↔
      (analysis.waste_level = "HIGH" ∨ analysis.waste_level = "MEDIUM")) := by
  unfold generate_admin_insight
  dsimp only
  refine ⟨?_, ?_, by simp [decide_eq_true_eq]⟩
  · intro hcond
    rw [if_pos hcond]
    refine ⟨?_, ?_, ?_, ?_⟩
    · simp only [List.mem_append, List.length_map]
      constructor
      · intro hx
        rcases hx with ((hx | hx) | hx) | hx
        · split_ifs at hx with hk
          · exact hk
          · simp at hx
        · split_ifs at hx with hk <;> simp_all
        · split_ifs at hx with hk <;> simp_all
        · simp_all
      · intro hk
        left; left; left
        rw [if_pos hk]
        exact List.mem_singleton.mpr rfl
    · simp only [List.mem_append, List.length_map]
      constructor
      · intro hx
        rcases hx with ((hx | hx) | hx) | hx
        · split_ifs at hx with hk <;> simp_all
        · split_ifs at hx with hk
          · exact hk
          · simp at hx
        · split_ifs at hx with hk <;> simp_all
        · simp_all
      · intro hk
        left; left; right
        rw [if_pos hk]
        exact List.mem_singleton.mpr rfl
    · simp only [List.mem_append, List.length_map]
      constructor
      · intro hx
        rcases hx with ((hx | hx) | hx) | hx
        · split_ifs at hx with hk <;> simp_all
        · split_ifs at hx with hk <;> simp_all
        · split_ifs at hx with hk
          · exact hk
          · simp at hx
        · simp_all
      · intro hk
        left; right
        rw [if_pos hk]
        exact List.mem_singleton.mpr rfl
    · simp only [List.mem_append]
      right
      exact List.mem_singleton.mpr rfl
  · intro hcond
    rw [if_neg hcond]

/-- A concrete HIGH-waste analysis used for witnesses. -/
def analysisHighW : PlateAnalysis :=
  { plate_detected := true
    coverage_percent := 75
    waste_level := "HIGH"
    waste_description := "Significant food remaining"
    food_items_detected := 2
    total_food_area_px := 30000
    plate_area_px := 40000 }

/-- Witness for C6: Rice and Roti left at HIGH waste. -/
theorem admin_recommendations_spec_witness :
    (([("Rice", 2), ("Roti", 1)] : List (String × ℕ)).map Prod.fst).Nodup ∧
    (((analysisHighW.waste_level = "HIGH" ∨ analysisHighW.waste_level = "MEDIUM") →
      (("Consider reducing default rice portion size" ∈
          (generate_admin_insight analysisHighW [("Rice", 2), ("Roti", 1)]).recommendations) ↔
        "Rice" ∈ ([("Rice", 2), ("Roti", 1)] : List (String × ℕ)).map Prod.fst) ∧
      (("Offer rotis on-demand rather than pre-plated" ∈
          (generate_admin_insight analysisHighW [("Rice", 2), ("Roti", 1)]).recommendations) ↔
        "Roti" ∈ ([("Rice", 2), ("Roti", 1)] : List (String × ℕ)).map Prod.fst) ∧
      (("Too many items may lead to waste - consider combo meals" ∈
          (generate_admin_insight analysisHighW [("Rice", 2), ("Roti", 1)]).recommendations) ↔
        4 < (([("Rice", 2), ("Roti", 1)] : List (String × ℕ)).map Prod.fst).length) ∧
      "Display waste awareness signage near serving area" ∈
        (generate_admin_insight analysisHighW [("Rice", 2), ("Roti", 1)]).recommendations) ∧
    (¬(analysisHighW.waste_level = "HIGH" ∨ analysisHighW.waste_level = "MEDIUM") →
      (generate_admin_insight analysisHighW [("Rice", 2), ("Roti", 1)]).recommendations = []) ∧
    ((generate_admin_insight analysisHighW [("Rice", 2), ("Roti", 1)]).action_required = true ↔
      (analysisHighW.waste_level = "HIGH" ∨ analysisHighW.waste_level = "MEDIUM"))) :=
  ⟨by decide, admin_recommendations_spec analysisHighW [("Rice", 2), ("Roti", 1)] (by decide)⟩

/-! ## C9: enrichment failure is equivalent to enrichment disabled -/

/-- C9: for every analysis and food-count mapping, the response assembled when
the enrichment adapter raises (exception/timeout) is identical to the response
assembled when enrichment is disabled entirely (whatever the adapter would
have done), and in both cases it is a success response carrying the
deterministic `user_insight` and `admin_insight` (no AI summary) — the
enrichment failure is never surfaced as a request failure. -/
theorem enrichment_failure_equals_disabled (analysis : PlateAnalysis)
    (food_counts : List (String × ℕ)) (o1 o2 : AdapterOutcome) :
    assemble_analysis_response analysis food_counts true .raises .raises =
      assemble_analysis_response analysis food_counts false o1 o2 ∧
    assemble_analysis_response analysis food_counts true .raises .raises =
      some { success := true
             user_insight := generate_user_insight analysis food_counts
             admin_insight := generate_admin_insight analysis food_counts
             ai_summary := none } := by
  have h1 : gemini_insight true .raises = none := rfl
  have h2 : gemini_insight false o1 = none := by
    unfold gemini_insight
    rw [if_pos rfl]
  have h3 : gemini_insight false o2 = none := by
    unfold gemini_insight
    rw [if_pos rfl]
  unfold assemble_analysis_response
  rw [h1, h2, h3]
  constructor <;> simp [pickInsight]

/-! ## C10: the level is chosen on the unrounded coverage -/

/-- A food detection of area 996, giving unrounded coverage 9.96 against the
10000-pixel plate of `detPlateW`. -/
def riceDet996 : Detection := { class_name := "Rice", confidence := 1, bbox := ⟨0, 0, 83, 12⟩ }

/-- C10: `analyze_plate_coverage` selects `waste_level` (and the description)
from the unrounded coverage while reporting `coverage_percent` rounded to one
decimal; at unrounded coverage 9.96 the returned record reports exactly the
boundary value 10.0 with `waste_level = NONE`, although applying the
thresholds to the reported value 10 would give LOW. -/
theorem waste_level_uses_unrounded_coverage :
    (∀ (dets : List Detection) (shape : ℚ × ℚ),
      (analyze_plate_coverage dets shape).waste_level = wasteLevelOf (coverageOf dets shape) ∧
      (analyze_plate_coverage dets shape).coverage_percent = roundTo 1 (coverageOf dets shape)) ∧
    coverageOf [detPlateW, riceDet996] (200, 200) = 249/25 ∧
    (analyze_plate_coverage [detPlateW, riceDet996] (200, 200)).coverage_percent = 10 ∧
    (analyze_plate_coverage [detPlateW, riceDet996] (200, 200)).waste_level = "NONE" ∧
    wasteLevelOf 10 = "LOW" := by
  have hfind : findPlateBBox [detPlateW, riceDet996] = some detPlateW.bbox := by decide
  have hp : is_plate detPlateW = true := by decide
  have hr : is_plate riceDet996 = false := by decide
  have hplate : plate_area_of [detPlateW, riceDet996] (200, 200) = 10000 := by
    simp only [plate_area_of, hfind]
    norm_num [calculate_box_area, detPlateW]
  have hfood : total_food_area_of [detPlateW, riceDet996] = 996 := by
    unfold total_food_area_of food_items_of
    simp only [List.filter, hp, hr, Bool.not_true, Bool.not_false]
    norm_num [calculate_box_area, riceDet996]
  have hcov : coverageOf [detPlateW, riceDet996] (200, 200) = 249/25 := by
    unfold coverageOf
    rw [hplate, hfood, if_pos (by norm_num), min_eq_left (by norm_num)]
    norm_num
  have hfloor1 : ⌊(498/5 : ℚ)⌋ = 99 := by
    rw [Int.floor_eq_iff]
    norm_num
  have hfloor2 : ⌊(1001/10 : ℚ)⌋ = 100 := by
    rw [Int.floor_eq_iff]
    norm_num
  have hround : roundTo 1 (249/25) = 10 := by
    unfold roundTo roundHalfEven
    have he : (249/25 : ℚ) * 10 ^ 1 = 498/5 := by norm_num
    rw [he, hfloor1, if_neg (by norm_num), round_eq]
    have he2 : (498/5 : ℚ) + 1/2 = 1001/10 := by norm_num
    rw [he2, hfloor2]
    norm_num
  refine ⟨fun dets shape => ⟨rfl, rfl⟩, hcov, ?_, ?_, ?_⟩
  · show roundTo 1 (coverageOf [detPlateW, riceDet996] (200, 200)) = 10
    rw [hcov, hround]
  · show wasteLevelOf (coverageOf [detPlateW, riceDet996] (200, 200)) = "NONE"
    rw [hcov, wasteLevelOf_eq_NONE]
    norm_num
  · rw [wasteLevelOf_eq_LOW]
    norm_num

/-! ## Aggregator characterization lemmas -/

/-- The coverage a record contributes to the running sum. -/
def coverageContrib (r : FeedbackRecord) : ℚ :=
  match r.wasteAnalysis with
  | none => 0
  | some w => w.coveragePercent

/-- Whether a record carries a waste sub-record with the given level. -/
def wlMatches (lvl : String) (r : FeedbackRecord) : Bool :=
  match r.wasteAnalysis with
  | none => false
  | some w => w.wasteLevel = lvl

/-- The wasted count a record's waste sub-record contributes for one item. -/
def itemsContrib (item : String) (items : List (String × ℤ)) : ℤ :=
  (items.map (fun ic => if item = ic.1 then ic.2 else 0)).sum

/-- The per-item wasted count contributed by one record. -/
def recordWasteContrib (item : String) (r : FeedbackRecord) : ℤ :=
  match r.wasteAnalysis with
  | none => 0
  | some w => itemsContrib item w.foodItems

lemma stepRecord_totalFeedback (s : AggState) (r : FeedbackRecord) :
    (stepRecord s r).totalFeedback = s.totalFeedback + 1 := by
  unfold stepRecord applyWaste applyRatings applyComment applyBase
  cases r.wasteAnalysis <;> rfl

lemma stepRecord_mealTypeCounts (s : AggState) (r : FeedbackRecord) (m : String) :
    (stepRecord s r).mealTypeCounts m =
      if m = r.mealType then s.mealTypeCounts m + 1 else s.mealTypeCounts m := by
  unfold stepRecord applyWaste applyRatings applyComment applyBase
  cases r.wasteAnalysis <;> rfl

lemma stepRecord_comments (s : AggState) (r : FeedbackRecord) :
    (stepRecord s r).comments = s.comments ++ (commentOf r).toList := by
  unfold stepRecord applyWaste applyRatings applyComment applyBase
  cases r.wasteAnalysis <;> rfl

lemma stepRecord_tasteList (s : AggState) (r : FeedbackRecord) :
    (stepRecord s r).tasteList = s.tasteList ++ r.ratings.taste.toList := by
  unfold stepRecord applyWaste applyRatings applyComment applyBase
  cases r.wasteAnalysis <;> rfl

lemma stepRecord_oilList (s : AggState) (r : FeedbackRecord) :
    (stepRecord s r).oilList = s.oilList ++ r.ratings.oil.toList := by
  unfold stepRecord applyWaste applyRatings applyComment applyBase
  cases r.wasteAnalysis <;> rfl

lemma stepRecord_quantityList (s : AggState) (r : FeedbackRecord) :
    (stepRecord s r).quantityList = s.quantityList ++ r.ratings.quantity.toList := by
  unfold stepRecord applyWaste applyRatings applyComment applyBase
  cases r.wasteAnalysis <;> rfl

lemma stepRecord_hygieneList (s : AggState) (r : FeedbackRecord) :
    (stepRecord s r).hygieneList = s.hygieneList ++ r.ratings.hygiene.toList := by
  unfold stepRecord applyWaste applyRatings applyComment applyBase
  cases r.wasteAnalysis <;> rfl

lemma stepRecord_totalAnalyses (s : AggState) (r : FeedbackRecord) :
    (stepRecord s r).totalAnalyses =
      s.totalAnalyses + (if r.wasteAnalysis.isSome then 1 else 0) := by
  unfold stepRecord applyWaste applyRatings applyComment applyBase
  cases r.wasteAnalysis <;> simp

lemma stepRecord_coverageSum (s : AggState) (r : FeedbackRecord) :
    (stepRecord s r).coverageSum = s.coverageSum + coverageContrib r := by
  unfold stepRecord applyWaste applyRatings applyComment applyBase coverageContrib
  cases r.wasteAnalysis <;> simp

lemma bumpWasteLevel_NONE (c : WasteLevelCounts) (lvl : String) :
    (bumpWasteLevel c lvl).NONE = c.NONE + (if lvl = "NONE" then 1 else 0) := by
  unfold bumpWasteLevel
  split_ifs <;> rfl

lemma bumpWasteLevel_LOW (c : WasteLevelCounts) (lvl : String) :
    (bumpWasteLevel c lvl).LOW = c.LOW + (if lvl = "LOW" then 1 else 0) := by
  unfold bumpWasteLevel
  split_ifs <;> simp_all

lemma bumpWasteLevel_MEDIUM (c : WasteLevelCounts) (lvl : String) :
    (bumpWasteLevel c lvl).MEDIUM = c.MEDIUM + (if lvl = "MEDIUM" then 1 else 0) := by
  unfold bumpWasteLevel
  split_ifs <;> simp_all

lemma bumpWasteLevel_HIGH (c : WasteLevelCounts) (lvl : String) :
    (bumpWasteLevel c lvl).HIGH = c.HIGH + (if lvl = "HIGH" then 1 else 0) := by
  unfold bumpWasteLevel
  split_ifs <;> simp_all

lemma stepRecord_wlc_NONE (s : AggState) (r : FeedbackRecord) :
    (stepRecord s r).wasteLevelCounts.NONE =
      s.wasteLevelCounts.NONE + (if wlMatches "NONE" r then 1 else 0) := by
  unfold stepRecord applyWaste applyRatings applyComment applyBase wlMatches
  cases r.wasteAnalysis with
  | none => simp
  | some w => simp [bumpWasteLevel_NONE]

lemma stepRecord_wlc_LOW (s : AggState) (r : FeedbackRecord) :
    (stepRecord s r).wasteLevelCounts.LOW =
      s.wasteLevelCounts.LOW + (if wlMatches "LOW" r then 1 else 0) := by
  unfold stepRecord applyWaste applyRatings applyComment applyBase wlMatches
  cases r.wasteAnalysis with
  | none => simp
  | some w => simp [bumpWasteLevel_LOW]

lemma stepRecord_wlc_MEDIUM (s : AggState) (r : FeedbackRecord) :
    (stepRecord s r).wasteLevelCounts.MEDIUM =
      s.wasteLevelCounts.MEDIUM + (if wlMatches "MEDIUM" r then 1 else 0) := by
  unfold stepRecord applyWaste applyRatings applyComment applyBase wlMatches
  cases r.wasteAnalysis with
  | none => simp
  | some w => simp [bumpWasteLevel_MEDIUM]

lemma stepRecord_wlc_HIGH (s : AggState) (r : FeedbackRecord) :
    (stepRecord s r).wasteLevelCounts.HIGH =
      s.wasteLevelCounts.HIGH + (if wlMatches "HIGH" r then 1 else 0) := by
  unfold stepRecord applyWaste applyRatings applyComment applyBase wlMatches
  cases r.wasteAnalysis with
  | none => simp
  | some w => simp [bumpWasteLevel_HIGH]

lemma addFoodItems_apply (f : String → ℤ) (items : List (String × ℤ)) (item : String) :
    addFoodItems f items item = f item + itemsContrib item items := by
  induction items generalizing f with
  | nil => simp [addFoodItems, itemsContrib]
  | cons ic ics ih =>
    simp only [addFoodItems, List.foldl_cons] at ih ⊢
    rw [ih]
    simp only [itemsContrib, List.map_cons, List.sum_cons]
    split_ifs with h <;> ring

lemma stepRecord_foodItemsWasted (s : AggState) (r : FeedbackRecord) (item : String) :
    (stepRecord s r).foodItemsWasted item =
      s.foodItemsWasted item + recordWasteContrib item r := by
  unfold stepRecord applyWaste applyRatings applyComment applyBase recordWasteContrib
  cases r.wasteAnalysis with
  | none => simp
  | some w => simp [addFoodItems_apply]

lemma foldl_totalFeedback (l : List FeedbackRecord) (s : AggState) :
    (l.foldl stepRecord s).totalFeedback = s.totalFeedback + l.length := by
  induction l generalizing s with
  | nil => simp
  | cons r rs ih =>
    simp only [List.foldl_cons, List.length_cons, ih, stepRecord_totalFeedback]
    omega

lemma foldl_mealTypeCounts (l : List FeedbackRecord) (s : AggState) (m : String) :
    (l.foldl stepRecord s).mealTypeCounts m =
      s.mealTypeCounts m + l.countP (fun r => m == r.mealType) := by
  induction l generalizing s with
  | nil => simp
  | cons r rs ih =>
    simp only [List.foldl_cons, List.countP_cons, ih, stepRecord_mealTypeCounts]
    by_cases h : m = r.mealType <;> simp [h] <;> omega

lemma foldl_comments (l : List FeedbackRecord) (s : AggState) :
    (l.foldl stepRecord s).comments = s.comments ++ l.filterMap commentOf := by
  induction l generalizing s with
  | nil => simp
  | cons r rs ih =>
    simp only [List.foldl_cons, ih, stepRecord_comments]
    cases hc : commentOf r <;> simp [hc, List.filterMap_cons]

lemma foldl_tasteList (l : List FeedbackRecord) (s : AggState) :
    (l.foldl stepRecord s).tasteList = s.tasteList ++ l.filterMap (fun r => r.ratings.taste) := by
  induction l generalizing s with
  | nil => simp
  | cons r rs ih =>
    simp only [List.foldl_cons, ih, stepRecord_tasteList]
    cases hc : r.ratings.taste <;> simp [hc, List.filterMap_cons]

lemma foldl_oilList (l : List FeedbackRecord) (s : AggState) :
    (l.foldl stepRecord s).oilList = s.oilList ++ l.filterMap (fun r => r.ratings.oil) := by
  induction l generalizing s with
  | nil => simp
  | cons r rs ih =>
    simp only [List.foldl_cons, ih, stepRecord_oilList]
    cases hc : r.ratings.oil <;> simp [hc, List.filterMap_cons]

lemma foldl_quantityList (l : List FeedbackRecord) (s : AggState) :
    (l.foldl stepRecord s).quantityList =
      s.quantityList ++ l.filterMap (fun r => r.ratings.quantity) := by
  induction l generalizing s with
  | nil => simp
  | cons r rs ih =>
    simp only [List.foldl_cons, ih, stepRecord_quantityList]
    cases hc : r.ratings.quantity <;> simp [hc, List.filterMap_cons]

lemma foldl_hygieneList (l : List FeedbackRecord) (s : AggState) :
    (l.foldl stepRecord s).hygieneList =
      s.hygieneList ++ l.filterMap (fun r => r.ratings.hygiene) := by
  induction l generalizing s with
  | nil => simp
  | cons r rs ih =>
    simp only [List.foldl_cons, ih, stepRecord_hygieneList]
    cases hc : r.ratings.hygiene <;> simp [hc, List.filterMap_cons]

lemma foldl_totalAnalyses (l : List FeedbackRecord) (s : AggState) :
    (l.foldl stepRecord s).totalAnalyses =
      s.totalAnalyses + l.countP (fun r => r.wasteAnalysis.isSome) := by
  induction l generalizing s with
  | nil => simp
  | cons r rs ih =>
    simp only [List.foldl_cons, List.countP_cons, ih, stepRecord_totalAnalyses]
    by_cases h : r.wasteAnalysis.isSome <;> simp [h] <;> omega

lemma foldl_coverageSum (l : List FeedbackRecord) (s : AggState) :
    (l.foldl stepRecord s).coverageSum = s.coverageSum + (l.map coverageContrib).sum := by
  induction l generalizing s with
  | nil => simp
  | cons r rs ih =>
    simp only [List.foldl_cons, List.map_cons, List.sum_cons, ih, stepRecord_coverageSum]
    ring

lemma foldl_wlc_NONE (l : List FeedbackRecord) (s : AggState) :
    (l.foldl stepRecord s).wasteLevelCounts.NONE =
      s.wasteLevelCounts.NONE + l.countP (wlMatches "NONE") := by
  induction l generalizing s with
  | nil => simp
  | cons r rs ih =>
    simp only [List.foldl_cons, List.countP_cons, ih, stepRecord_wlc_NONE]
    by_cases h : wlMatches "NONE" r <;> simp [h] <;> omega

lemma foldl_wlc_LOW (l : List FeedbackRecord) (s : AggState) :
    (l.foldl stepRecord s).wasteLevelCounts.LOW =
      s.wasteLevelCounts.LOW + l.countP (wlMatches "LOW") := by
  induction l generalizing s with
  | nil => simp
  | cons r rs ih =>
    simp only [List.foldl_cons, List.countP_cons, ih, stepRecord_wlc_LOW]
    by_cases h : wlMatches "LOW" r <;> simp [h] <;> omega

lemma foldl_wlc_MEDIUM (l : List FeedbackRecord) (s : AggState) :
    (l.foldl stepRecord s).wasteLevelCounts.MEDIUM =
      s.wasteLevelCounts.MEDIUM + l.countP (wlMatches "MEDIUM") := by
  induction l generalizing s with
  | nil => simp
  | cons r rs ih =>
    simp only [List.foldl_cons, List.countP_cons, ih, stepRecord_wlc_MEDIUM]
    by_cases h : wlMatches "MEDIUM" r <;> simp [h] <;> omega

lemma foldl_wlc_HIGH (l : List FeedbackRecord) (s : AggState) :
    (l.foldl stepRecord s).wasteLevelCounts.HIGH =
      s.wasteLevelCounts.HIGH + l.countP (wlMatches "HIGH") := by
  induction l generalizing s with
  | nil => simp
  | cons r rs ih =>
    simp only [List.foldl_cons, List.countP_cons, ih, stepRecord_wlc_HIGH]
    by_cases h : wlMatches "HIGH" r <;> simp [h] <;> omega

lemma foldl_foodItemsWasted (l : List FeedbackRecord) (s : AggState) (item : String) :
    (l.foldl stepRecord s).foodItemsWasted item =
      s.foodItemsWasted item + (l.map (recordWasteContrib item)).sum := by
  induction l generalizing s with
  | nil => simp
  | cons r rs ih =>
    simp only [List.foldl_cons, List.map_cons, List.sum_cons, ih, stepRecord_foodItemsWasted]
    ring

lemma finalizeRatings_perm (v1 v2 : List ℚ) (h : v1.Perm v2) :
    finalizeRatings v1 = finalizeRatings v2 := by
  unfold finalizeRatings
  by_cases h1 : v1 = []
  · have h2 : v2 = [] := by
      rw [h1] at h
      exact h.symm.eq_nil
    rw [h1, h2]
  · have h2 : v2 ≠ [] := by
      intro he
      rw [he] at h
      exact h1 h.eq_nil
    rw [if_pos h1, if_pos h2, h.sum_eq, h.length_eq]

lemma wlc_ext (x y : WasteLevelCounts) (h1 : x.NONE = y.NONE) (h2 : x.LOW = y.LOW)
    (h3 : x.MEDIUM = y.MEDIUM) (h4 : x.HIGH = y.HIGH) : x = y := by
  cases x
  cases y
  simp_all

/-! ## C7: aggregator order-independence -/

/-- A feedback record with comment "aa" (no ratings, no waste record). -/
def recAW : FeedbackRecord :=
  { mealType := "lunch", comment := "aa", ratings := ⟨none, none, none, none⟩, wasteAnalysis := none }

/-- A feedback record with comment "bb" (no ratings, no waste record). -/
def recBW : FeedbackRecord :=
  { mealType := "dinner", comment := "bb", ratings := ⟨none, none, none, none⟩, wasteAnalysis := none }

/-- C7 counterexample: the finalized snapshot is NOT identical under
permutation, because the comment-excerpt list preserves record order:
aggregating `[A, B]` and `[B, A]` yields different `comments` lists. -/
theorem aggregator_order_dependent_comments :
    ([recAW, recBW].Perm [recBW, recAW]) ∧
    (finalize (aggregate [recAW, recBW])).comments ≠
      (finalize (aggregate [recBW, recAW])).comments := by
  constructor
  · exact List.Perm.swap recBW recAW []
  · decide

/-- C7 amended: under any permutation of the feedback records the finalized
snapshot agrees on every aggregate field — total count, per-meal-type counts,
the four rating averages, analysis count, waste-level histogram, average
coverage percent, per-item wasted counts — while the comment-excerpt list is
preserved only up to permutation (it follows record order). -/
theorem aggregator_perm_invariant (l1 l2 : List FeedbackRecord) (h : l1.Perm l2) :
    (finalize (aggregate l1)).totalFeedback = (finalize (aggregate l2)).totalFeedback ∧
    (finalize (aggregate l1)).mealTypeCounts = (finalize (aggregate l2)).mealTypeCounts ∧
    (finalize (aggregate l1)).ratingAvgTaste = (finalize (aggregate l2)).ratingAvgTaste ∧
    (finalize (aggregate l1)).ratingAvgOil = (finalize (aggregate l2)).ratingAvgOil ∧
    (finalize (aggregate l1)).ratingAvgQuantity = (finalize (aggregate l2)).ratingAvgQuantity ∧
    (finalize (aggregate l1)).ratingAvgHygiene = (finalize (aggregate l2)).ratingAvgHygiene ∧
    (finalize (aggregate l1)).totalAnalyses = (finalize (aggregate l2)).totalAnalyses ∧
    (finalize (aggregate l1)).wasteLevelCounts = (finalize (aggregate l2)).wasteLevelCounts ∧
    (finalize (aggregate l1)).avgCoveragePercent = (finalize (aggregate l2)).avgCoveragePercent ∧
    (finalize (aggregate l1)).foodItemsWasted = (finalize (aggregate l2)).foodItemsWasted ∧
    (finalize (aggregate l1)).comments.Perm (finalize (aggregate l2)).comments := by
  have hta : (aggregate l1).totalAnalyses = (aggregate l2).totalAnalyses := by
    unfold aggregate
    rw [foldl_totalAnalyses, foldl_totalAnalyses, h.countP_eq]
  have hcs : (aggregate l1).coverageSum = (aggregate l2).coverageSum := by
    unfold aggregate
    rw [foldl_coverageSum, foldl_coverageSum, (h.map coverageContrib).sum_eq]
  refine ⟨?_, ?_, ?_, ?_, ?_, ?_, hta, ?_, ?_, ?_, ?_⟩
  · show (aggregate l1).totalFeedback = (aggregate l2).totalFeedback
    unfold aggregate
    rw [foldl_totalFeedback, foldl_totalFeedback, h.length_eq]
  · show (aggregate l1).mealTypeCounts = (aggregate l2).mealTypeCounts
    funext m
    unfold aggregate
    rw [foldl_mealTypeCounts, foldl_mealTypeCounts, h.countP_eq]
  · show finalizeRatings (aggregate l1).tasteList = finalizeRatings (aggregate l2).tasteList
    apply finalizeRatings_perm
    unfold aggregate
    rw [foldl_tasteList, foldl_tasteList]
    exact (h.filterMap (fun r => r.ratings.taste)).append_left _
  · show finalizeRatings (aggregate l1).oilList = finalizeRatings (aggregate l2).oilList
    apply finalizeRatings_perm
    unfold aggregate
    rw [foldl_oilList, foldl_oilList]
    exact (h.filterMap (fun r => r.ratings.oil)).append_left _
  · show finalizeRatings (aggregate l1).quantityList = finalizeRatings (aggregate l2).quantityList
    apply finalizeRatings_perm
    unfold aggregate
    rw [foldl_quantityList, foldl_quantityList]
    exact (h.filterMap (fun r => r.ratings.quantity)).append_left _
  · show finalizeRatings (aggregate l1).hygieneList = finalizeRatings (aggregate l2).hygieneList
    apply finalizeRatings_perm
    unfold aggregate
    rw [foldl_hygieneList, foldl_hygieneList]
    exact (h.filterMap (fun r => r.ratings.hygiene)).append_left _
  · show (aggregate l1).wasteLevelCounts = (aggregate l2).wasteLevelCounts
    refine wlc_ext _ _ ?_ ?_ ?_ ?_ <;>
      unfold aggregate
    · rw [foldl_wlc_NONE, foldl_wlc_NONE, h.countP_eq]
    · rw [foldl_wlc_LOW, foldl_wlc_LOW, h.countP_eq]
    · rw [foldl_wlc_MEDIUM, foldl_wlc_MEDIUM, h.countP_eq]
    · rw [foldl_wlc_HIGH, foldl_wlc_HIGH, h.countP_eq]
  · show (if (aggregate l1).totalAnalyses > 0
        then roundTo 1 ((aggregate l1).coverageSum / ((aggregate l1).totalAnalyses : ℚ))
        else (aggregate l1).coverageSum) =
      (if (aggregate l2).totalAnalyses > 0
        then roundTo 1 ((aggregate l2).coverageSum / ((aggregate l2).totalAnalyses : ℚ))
        else (aggregate l2).coverageSum)
    rw [hta, hcs]
  · show (aggregate l1).foodItemsWasted = (aggregate l2).foodItemsWasted
    funext item
    unfold aggregate
    rw [foldl_foodItemsWasted, foldl_foodItemsWasted, (h.map (recordWasteContrib item)).sum_eq]
  · show (aggregate l1).comments.Perm (aggregate l2).comments
    unfold aggregate
    rw [foldl_comments, foldl_comments]
    exact (h.filterMap commentOf).append_left _

/-- Witness for C7 (amended) on the two-record swap. -/
theorem aggregator_perm_invariant_witness :
    ([recAW, recBW].Perm [recBW, recAW]) ∧
    (finalize (aggregate [recAW, recBW])).totalFeedback =
      (finalize (aggregate [recBW, recAW])).totalFeedback ∧
    (finalize (aggregate [recAW, recBW])).comments.Perm
      (finalize (aggregate [recBW, recAW])).comments :=
  ⟨List.Perm.swap recBW recAW [],
    (aggregator_perm_invariant [recAW, recBW] [recBW, recAW] (List.Perm.swap recBW recAW [])).1,
    (aggregator_perm_invariant [recAW, recBW] [recBW, recAW]
      (List.Perm.swap recBW recAW [])).2.2.2.2.2.2.2.2.2.2⟩

/-! ## C8: finalization never divides by zero; empty window short-circuits -/

/-- The all-zero snapshot produced for an empty window. -/
def zeroSnapshot : Snapshot :=
  { totalFeedback := 0
    mealTypeCounts := fun _ => 0
    comments := []
    ratingAvgTaste := 0
    ratingAvgOil := 0
    ratingAvgQuantity := 0
    ratingAvgHygiene := 0
    totalAnalyses := 0
    wasteLevelCounts := ⟨0, 0, 0, 0⟩
    avgCoveragePercent := 0
    foodItemsWasted := fun _ => 0 }

/-- C8: finalization is total on zero divisors — every rating category with
zero observations finalizes to average 0, the average coverage finalizes to 0
when no record carried a waste sub-record, an empty window finalizes to the
well-formed all-zero snapshot, and on an empty window `generate_ai_insights`
returns the no-data insights without invoking the enrichment adapter. -/
theorem aggregator_zero_divisors_safe (l : List FeedbackRecord) (time_range : String)
    (enrich : Snapshot → Option StructuredInsights) :
    ((∀ r ∈ l, r.ratings.taste = none) → (finalize (aggregate l)).ratingAvgTaste = 0) ∧
    ((∀ r ∈ l, r.ratings.oil = none) → (finalize (aggregate l)).ratingAvgOil = 0) ∧
    ((∀ r ∈ l, r.ratings.quantity = none) → (finalize (aggregate l)).ratingAvgQuantity = 0) ∧
    ((∀ r ∈ l, r.ratings.hygiene = none) → (finalize (aggregate l)).ratingAvgHygiene = 0) ∧
    ((∀ r ∈ l, r.wasteAnalysis = none) → (finalize (aggregate l)).avgCoveragePercent = 0) ∧
    finalize (aggregate []) = zeroSnapshot ∧
    generate_ai_insights time_range enrich [] = (empty_insights time_range, false) := by
  have hlist : ∀ (f : FeedbackRecord → Option ℚ), (∀ r ∈ l, f r = none) →
      l.filterMap f = [] := by
    intro f hf
    exact List.filterMap_eq_nil_iff.mpr hf
  refine ⟨?_, ?_, ?_, ?_, ?_, rfl, rfl⟩
  · intro hr
    show finalizeRatings (aggregate l).tasteList = 0
    unfold aggregate
    rw [foldl_tasteList]
    show finalizeRatings ((initAggState.tasteList) ++ _) = 0
    rw [hlist _ hr]
    rfl
  · intro hr
    show finalizeRatings (aggregate l).oilList = 0
    unfold aggregate
    rw [foldl_oilList]
    show finalizeRatings ((initAggState.oilList) ++ _) = 0
    rw [hlist _ hr]
    rfl
  · intro hr
    show finalizeRatings (aggregate l).quantityList = 0
    unfold aggregate
    rw [foldl_quantityList]
    show finalizeRatings ((initAggState.quantityList) ++ _) = 0
    rw [hlist _ hr]
    rfl
  · intro hr
    show finalizeRatings (aggregate l).hygieneList = 0
    unfold aggregate
    rw [foldl_hygieneList]
    show finalizeRatings ((initAggState.hygieneList) ++ _) = 0
    rw [hlist _ hr]
    rfl
  · intro hr
    have hta : (aggregate l).totalAnalyses = 0 := by
      unfold aggregate
      rw [foldl_totalAnalyses]
      have : l.countP (fun r => r.wasteAnalysis.isSome) = 0 := by
        rw [List.countP_eq_zero]
        intro r hmem
        rw [hr r hmem]
        simp
      rw [this]
      rfl
    have hcs : (aggregate l).coverageSum = 0 := by
      unfold aggregate
      rw [foldl_coverageSum]
      have : ∀ x ∈ l.map coverageContrib, x = 0 := by
        intro x hx
        obtain ⟨r, hmem, rfl⟩ := List.mem_map.mp hx
        unfold coverageContrib
        rw [hr r hmem]
      rw [List.sum_eq_zero this]
      norm_num [initAggState]
    show (if (aggregate l).totalAnalyses > 0
        then roundTo 1 ((aggregate l).coverageSum / ((aggregate l).totalAnalyses : ℚ))
        else (aggregate l).coverageSum) = 0
    rw [hta, hcs]
    norm_num

/-- Witness for C8: a single no-rating no-waste record, and the empty window. -/
theorem aggregator_zero_divisors_safe_witness :
    (∀ r ∈ [recAW], r.ratings.taste = none) ∧
    (∀ r ∈ [recAW], r.wasteAnalysis = none) ∧
    (finalize (aggregate [recAW])).ratingAvgTaste = 0 ∧
    (finalize (aggregate [recAW])).avgCoveragePercent = 0 ∧
    finalize (aggregate []) = zeroSnapshot ∧
    generate_ai_insights "weekly" (fun _ => none) [] = (empty_insights "weekly", false) :=
  ⟨by decide, by decide,
    (aggregator_zero_divisors_safe [recAW] "weekly" (fun _ => none)).1 (by decide),
    (aggregator_zero_divisors_safe [recAW] "weekly" (fun _ => none)).2.2.2.2.1 (by decide),
    (aggregator_zero_divisors_safe [recAW] "weekly" (fun _ => none)).2.2.2.2.2.1,
    (aggregator_zero_divisors_safe [recAW] "weekly" (fun _ => none)).2.2.2.2.2.2⟩
